import Mathlib

/-!
Verification of anolis-provider-sim against its natural-language
specification.  Each definition below is a shallow embedding of a function
from the C++ source tree; C++ `double` values are modelled as rationals
(the arithmetic in every claim is exact), `std::optional` as `Option`,
`std::map` / `std::set` as association lists / lists with first-match
lookup, and exceptions as `Except String`.
-/

namespace Anolis

/-! ## Signal registry (src/devices/signal_registry.cpp) -/

/-- State of `SignalRegistry`: the physics-driven path set, the physics
value cache, and the optional device-reader callback, mirroring the three
members guarded by `registry_mutex_`. -/
structure SignalRegistry where
  physics_driven : List String
  cache : List (String × ℚ)
  device_reader : Option (String → Option ℚ)

/-- `SignalRegistry::read_signal` (signal_registry.cpp lines 6-36): if the
path is physics-driven return the cached value (or none when physics has
not written yet); otherwise delegate to the device reader when one is set,
else return none. -/
def SignalRegistry.read_signal (r : SignalRegistry) (path : String) : Option ℚ :=
  if path ∈ r.physics_driven then
    r.cache.lookup path
  else
    match r.device_reader with
    | some reader => reader path
    | none => none

/-- `SignalRegistry::write_signal` (lines 38-46): mark the path
physics-driven (idempotent set insert) and update the cached value. -/
def SignalRegistry.write_signal (r : SignalRegistry) (path : String) (value : ℚ) :
    SignalRegistry :=
  { r with
    physics_driven := r.physics_driven.insert path
    cache := (path, value) :: r.cache }

/-- `SignalRegistry::mark_physics_driven` (lines 53-56). -/
def SignalRegistry.mark_physics_driven (r : SignalRegistry) (path : String) :
    SignalRegistry :=
  { r with physics_driven := r.physics_driven.insert path }

/-- `SignalRegistry::clear_physics_overrides` (lines 58-62): clear both the
physics-driven set and the cache. -/
def SignalRegistry.clear_physics_overrides (r : SignalRegistry) : SignalRegistry :=
  { r with physics_driven := [], cache := [] }

/-- `SignalRegistry::set_device_reader` (lines 64-68). -/
def SignalRegistry.set_device_reader (r : SignalRegistry)
    (reader : Option (String → Option ℚ)) : SignalRegistry :=
  { r with device_reader := reader }

/-- Registry invariant from the spec: every path with a cache entry is in
the physics-driven set. -/
def SignalRegistry.Inv (r : SignalRegistry) : Prop :=
  ∀ p v, r.cache.lookup p = some v → p ∈ r.physics_driven

/-! ## Thermal mass model (src/physics/thermal_mass_model.cpp) -/

/-- `ThermalMassModel` members: parameters and the integrated temperature
state. -/
structure ThermalMassModel where
  thermal_mass : ℚ
  heat_transfer_coeff : ℚ
  initial_temp : ℚ
  temperature : ℚ
deriving DecidableEq

/-- The `ThermalMassModel` constructor (thermal_mass_model.cpp lines 6-11):
C = 1000 J/K, h = 10 W/K, initial and current temperature 25 deg C. -/
def ThermalMassModel.ctor : ThermalMassModel :=
  { thermal_mass := 1000, heat_transfer_coeff := 10
    initial_temp := 25, temperature := 25 }

/-- `ThermalMassModel::init` (lines 13-36): override parameters present in
`params`, rejecting non-positive `thermal_mass` or `heat_transfer_coeff`,
then reset the temperature to `initial_temp`. -/
def ThermalMassModel.init (m : ThermalMassModel) (params : List (String × ℚ)) :
    Except String ThermalMassModel :=
  let step1 : Except String ThermalMassModel :=
    match params.lookup "thermal_mass" with
    | some v =>
        if v ≤ 0 then .error "ThermalMassModel: thermal_mass must be > 0.0"
        else .ok { m with thermal_mass := v }
    | none => .ok m
  match step1 with
  | .error e => .error e
  | .ok m1 =>
    let step2 : Except String ThermalMassModel :=
      match params.lookup "heat_transfer_coeff" with
      | some v =>
          if v ≤ 0 then .error "ThermalMassModel: heat_transfer_coeff must be > 0.0"
          else .ok { m1 with heat_transfer_coeff := v }
      | none => .ok m1
    match step2 with
    | .error e => .error e
    | .ok m2 =>
      let m3 :=
        match params.lookup "initial_temp" with
        | some v => { m2 with initial_temp := v }
        | none => m2
      .ok { m3 with temperature := m3.initial_temp }

/-- `ThermalMassModel::update` (lines 38-64): one explicit-Euler step.
Missing `heating_power` defaults to 0 W, missing `ambient_temp` to
25 deg C; the returned output map holds exactly the new temperature. -/
def ThermalMassModel.update (m : ThermalMassModel) (dt : ℚ)
    (inputs : List (String × ℚ)) : ThermalMassModel × List (String × ℚ) :=
  let heating_power := (inputs.lookup "heating_power").getD 0
  let ambient_temp := (inputs.lookup "ambient_temp").getD 25
  let q_ambient := m.heat_transfer_coeff * (m.temperature - ambient_temp)
  let dT_dt := (heating_power - q_ambient) / m.thermal_mass
  let m' := { m with temperature := m.temperature + dT_dt * dt }
  (m', [("temperature", m'.temperature)])

/-! ## Framed transport (src/transport/framed_stdio.cpp) -/

/-- `transport::kMaxFrameBytes` (framed_stdio.hpp line 14): 1 MiB. -/
def kMaxFrameBytes : Nat := 1024 * 1024

/-- `decode_u32_le` (framed_stdio.cpp lines 10-16): little-endian decode of
four bytes. -/
def decode_u32_le (b0 b1 b2 b3 : Nat) : Nat :=
  b0 + 256 * b1 + 65536 * b2 + 16777216 * b3

/-- `encode_u32_le` (lines 18-24): little-endian encode of a 32-bit value
into four bytes (the masks of the source are the mod-256 reductions). -/
def encode_u32_le (v : Nat) : List Nat :=
  [v % 256, v / 256 % 256, v / 65536 % 256, v / 16777216 % 256]

/-- Result of `read_frame`: the returned Bool, the `err` string and, on
success, the payload; `rest` is the unconsumed remainder of the stream. -/
structure ReadFrameOut where
  ok : Bool
  err : String
  payload : List Nat
  rest : List Nat
deriving DecidableEq

/-- `read_frame` (framed_stdio.cpp lines 46-88) over a byte stream modelled
as a list.  An empty stream is clean EOF (`ok = false`, empty `err`); a
truncated header or payload and an out-of-range decoded length set a
non-empty `err`. -/
def read_frame (input : List Nat) (max_len : Nat) : ReadFrameOut :=
  match input with
  | [] => { ok := false, err := "", payload := [], rest := [] }
  | b0 :: b1 :: b2 :: b3 :: rest2 =>
    let len := decode_u32_le b0 b1 b2 b3
    if len = 0 then
      { ok := false, err := "invalid frame length: 0", payload := [], rest := rest2 }
    else if max_len < len then
      { ok := false, err := "frame length exceeds max", payload := [], rest := rest2 }
    else if rest2.length < len then
      { ok := false, err := "unexpected EOF while reading frame payload"
        payload := [], rest := [] }
    else
      { ok := true, err := "", payload := rest2.take len, rest := rest2.drop len }
  | _ =>
    { ok := false, err := "unexpected EOF while reading frame header"
      payload := [], rest := [] }

/-- `write_frame` (lines 90-135): emit the 4-byte little-endian length
followed by the payload; empty and oversized payloads are rejected with a
non-empty error.  The stream writes and the final flush of the source are
the act of returning the emitted bytes here. -/
def write_frame (data : List Nat) (max_len : Nat) : Except String (List Nat) :=
  if data.length = 0 then .error "invalid frame length: 0"
  else if max_len < data.length then .error "frame length exceeds max"
  else if 4294967295 < data.length then .error "frame length exceeds uint32"
  else .ok (encode_u32_le data.length ++ data)

/-- Repeatedly `read_frame` a stream to exhaustion, collecting payloads;
`none` on any protocol error.  `fuel` bounds the number of frames. -/
def read_all (max_len : Nat) : Nat → List Nat → Option (List (List Nat))
  | _, [] => some []
  | 0, _ :: _ => none
  | fuel + 1, b :: bs =>
    let r := read_frame (b :: bs) max_len
    if r.ok then (read_all max_len fuel r.rest).map (r.payload :: ·)
    else none

/-! ## Physics ticker schedule (src/physics/sim_physics.cpp lines 175-272) -/

/-- Start time of the next tick as scheduled by `ticker_thread`
(sim_physics.cpp lines 263-268): measure `elapsed` from this tick's start;
sleep for `period - elapsed` when the tick finished early, otherwise start
the next tick immediately (ideal sleeps, times in seconds). -/
def nextTickStart (period elapsed start : ℚ) : ℚ :=
  if elapsed < period then start + period else start + elapsed

/-- Start time of the k-th tick of the ticker loop, with the thread start
at time 0 and `elapsed k` the work duration of tick `k`. -/
def tickStart (period : ℚ) (elapsed : ℕ → ℚ) : ℕ → ℚ
  | 0 => 0
  | k + 1 => nextTickStart period (elapsed k) (tickStart period elapsed k)

/-! ## Rule engine condition evaluation (src/devices/rule_engine.cpp) -/

/-- The six comparators accepted by the rule-condition grammar. -/
inductive Cmp
  | lt | gt | le | ge | eq | ne
deriving DecidableEq

/-- `RuleEngine::evaluate_condition` (rule_engine.cpp lines 37-75), after
the regex has split the condition into object id, signal id, comparator
and numeric literal: read `object/signal` through the signal source; a
missing value makes the condition false, otherwise apply the comparator,
equality and inequality using the absolute tolerance 1e-6. -/
def evaluate_condition (read : String → Option ℚ)
    (object_id signal_id : String) (cmp : Cmp) (threshold : ℚ) : Bool :=
  match read (object_id ++ "/" ++ signal_id) with
  | none => false
  | some v =>
    match cmp with
    | .lt => decide (v < threshold)
    | .gt => decide (v > threshold)
    | .le => decide (v ≤ threshold)
    | .ge => decide (v ≥ threshold)
    | .eq => decide (|v - threshold| < 1 / 1000000)
    | .ne => decide (|v - threshold| ≥ 1 / 1000000)

/-! ## Config validation (src/config.cpp `load_config` lines 276-341) -/

/-- `SimulationMode` (config.hpp). -/
inductive SimulationMode
  | NonInteracting | Inert | Physics
deriving DecidableEq

/-- The slice of a parsed `DeviceSpec` that `load_config` validation
consults: its id and whether its config mentions `physics_bindings`. -/
structure DeviceSpecV where
  id : String
  has_physics_bindings : Bool
deriving DecidableEq

/-- Fields of the YAML document that the validation part of `load_config`
consumes, as produced by the parse steps before line 276 of config.cpp. -/
structure RawConfig where
  mode : SimulationMode
  tick_rate_hz : Option ℚ
  physics_config : Option String
  devices : List DeviceSpecV

/-- The physics_bindings check of `load_config` (config.cpp lines 332-341):
outside physics mode, the first device carrying `physics_bindings` is an
error. -/
def validate_bindings (c : RawConfig) : Except String RawConfig :=
  if c.mode = SimulationMode.Physics then .ok c
  else
    match c.devices.find? (fun d => d.has_physics_bindings) with
    | some d =>
        .error ("[CONFIG] Device '" ++ d.id ++
          "' has physics_bindings but mode!= physics")
    | none => .ok c

/-- The mode-by-field matrix of `load_config` (config.cpp lines 294-330),
followed by the bindings check. -/
def validate_mode (c : RawConfig) : Except String RawConfig :=
  match c.mode with
  | .NonInteracting =>
    if c.tick_rate_hz.isNone then
      .error "[CONFIG] mode=non_interacting requires simulation.tick_rate_hz"
    else if c.physics_config.isSome then
      .error "[CONFIG] mode=non_interacting cannot have physics_config"
    else validate_bindings c
  | .Inert =>
    if c.tick_rate_hz.isSome then
      .error "[CONFIG] mode=inert cannot have simulation.tick_rate_hz"
    else if c.physics_config.isSome then
      .error "[CONFIG] mode=inert cannot have physics_config"
    else validate_bindings c
  | .Physics =>
    if c.tick_rate_hz.isNone then
      .error "[CONFIG] mode=physics requires simulation.tick_rate_hz"
    else if c.physics_config.isNone then
      .error "[CONFIG] mode=physics requires simulation.physics_config"
    else validate_bindings c

/-- Validation performed by `load_config` (config.cpp lines 276-341) on the
already-parsed fields: the tick-rate bound check of lines 276-286 (run when
the field is present, before the mode matrix), then the matrix and the
bindings check.  A thrown exception is an `Except.error`; nothing of the
configuration escapes on error. -/
def load_config_validate (c : RawConfig) : Except String RawConfig :=
  match c.tick_rate_hz with
  | some r =>
    if r < 1 / 10 ∨ 1000 < r then
      .error "[CONFIG] simulation.tick_rate_hz must be in range [0.1, 1000.0]"
    else validate_mode c
  | none => validate_mode c

/-- True exactly when an `Except` carries a value. -/
def exceptIsOk {ε α : Type} : Except ε α → Bool
  | .ok _ => true
  | .error _ => false

/-! ## Call handler (src/handlers.cpp `handle_call` lines 138-173) -/

/-- Protocol status codes used by the handlers. -/
inductive StatusCode
  | OK | INVALID_ARGUMENT | NOT_FOUND | FAILED_PRECONDITION | UNIMPLEMENTED | INTERNAL
deriving DecidableEq

/-- The fields of `CallRequest` that `handle_call` consults. -/
structure CallRequest where
  device_id : String
  function_id : Nat
  function_name : String
deriving DecidableEq

/-- `handle_call` (handlers.cpp lines 138-173) over an abstract device
state `σ` and an abstract `sim_devices::call_function`: validation rejects
an empty device id, then a zero `function_id` (INVALID_ARGUMENT when
`function_name` is also empty, UNIMPLEMENTED otherwise, since name lookup
is unsupported); only past those checks is `call_function` invoked and
allowed to change the device state.  Returns the final state and the
response status. -/
def handle_call {σ : Type} (call_function : String → Nat → σ → σ × StatusCode)
    (req : CallRequest) (s : σ) : σ × StatusCode :=
  if req.device_id = "" then (s, .INVALID_ARGUMENT)
  else if req.function_id = 0 ∧ req.function_name = "" then (s, .INVALID_ARGUMENT)
  else if req.function_id = 0 then (s, .UNIMPLEMENTED)
  else
    let (s', code) := call_function req.device_id req.function_id s
    if code ≠ .OK then (s', code) else (s', .OK)

/-! ## Delay transform (src/physics/sim_physics.cpp lines 347-376) -/

/-- `DelayState` (sim_physics.hpp): the configured delay and the
time-stamped buffer. -/
structure DelayState where
  delay_sec : ℚ
  buffer : List (ℚ × ℚ)
deriving DecidableEq

/-- The Delay case of `SimPhysics::apply_transform` (sim_physics.cpp lines
347-376).  `sim_time` is the function-local `static double sim_time`: it is
shared by every delay edge (and bumped by each call), so it is threaded
explicitly here.  Returns the updated edge state, the updated shared clock
and the output value. -/
def apply_delay (state : DelayState) (sim_time input dt : ℚ) :
    DelayState × ℚ × ℚ :=
  let sim_time' := sim_time + dt
  let buf1 := state.buffer ++ [(sim_time', input)]
  let target_time := sim_time' - state.delay_sec
  let buf2 := buf1.dropWhile (fun e => decide (e.1 < target_time - dt))
  let output :=
    if buf2.isEmpty then input
    else
      match buf2.find? (fun e => decide (target_time ≤ e.1)) with
      | some e => e.2
      | none => ((buf2.getLast?).getD (0, input)).2
  ({ state with buffer := buf2 }, sim_time', output)

/-- Two ticks of a single delay edge A (delay 1 s, dt = 1 s, inputs 10 then
20) when A is the only delay edge in the configuration: the shared clock is
bumped once per tick.  Yields A's two outputs. -/
def delayAloneOutputs : ℚ × ℚ :=
  let s0 : DelayState := { delay_sec := 1, buffer := [] }
  let r1 := apply_delay s0 0 10 1
  let r2 := apply_delay r1.1 r1.2.1 20 1
  (r1.2.2, r2.2.2)

/-- The same two ticks of edge A, but with a second delay edge B (its own
`DelayState`, processed after A each tick): B's calls also bump the shared
`static` clock, so A sees the clock advance by two per tick.  Yields A's
two outputs. -/
def delayWithOtherOutputs : ℚ × ℚ :=
  let sA0 : DelayState := { delay_sec := 1, buffer := [] }
  let sB0 : DelayState := { delay_sec := 1, buffer := [] }
  let a1 := apply_delay sA0 0 10 1
  let b1 := apply_delay sB0 a1.2.1 0 1
  let a2 := apply_delay a1.1 b1.2.1 20 1
  (a1.2.2, a2.2.2)

/-! ## Claims -/

/-- Claim C1: for every signal path, if the path is in the physics-driven
set then `read_signal` returns the cached value (none when physics has not
yet written it) and its result does not depend on the device reader; if the
path is not physics-driven, `read_signal` delegates to the device reader
(none when no callback is set) and its result does not depend on the
cache. -/
theorem read_signal_physics_vs_device (r : SignalRegistry) (p : String) :
    (p ∈ r.physics_driven →
      r.read_signal p = r.cache.lookup p ∧
      ∀ f, (SignalRegistry.mk r.physics_driven r.cache f).read_signal p =
        r.cache.lookup p) ∧
    (p ∉ r.physics_driven →
      r.read_signal p = (match r.device_reader with
        | some reader => reader p
        | none => none) ∧
      ∀ c, (SignalRegistry.mk r.physics_driven c r.device_reader).read_signal p =
        r.read_signal p) := by
  constructor
  · intro h
    constructor
    · simp [SignalRegistry.read_signal, h]
    · intro f; simp [SignalRegistry.read_signal, h]
  · intro h
    constructor
    · simp [SignalRegistry.read_signal, h]
    · intro c; simp [SignalRegistry.read_signal, h]

/-- Witness for C1 at concrete registries: a physics-driven path reads the
cache and ignores the reader; a non-physics path reads through the
callback and ignores the cache. -/
theorem read_signal_physics_vs_device_witness :
    (SignalRegistry.mk ["a/b"] [("a/b", 5)] (some fun _ => some 7)).read_signal "a/b" =
      List.lookup "a/b" [("a/b", (5 : ℚ))] ∧
    (SignalRegistry.mk [] [("a/b", 5)] (some fun _ => some 7)).read_signal "a/b" =
      some 7 := by
  constructor
  · exact ((read_signal_physics_vs_device
      (SignalRegistry.mk ["a/b"] [("a/b", 5)] (some fun _ => some 7)) "a/b").1
      (by simp)).1
  · have h := ((read_signal_physics_vs_device
      (SignalRegistry.mk [] [("a/b", 5)] (some fun _ => some 7)) "a/b").2
      (by simp)).1
    simpa using h

/-- Claim C9: the invariant "every cached path is physics-driven" is
preserved by every registry operation.  `read_signal` performs no state
mutation in the source (and none in the embedding), so its preservation is
the final conjunct, on the unchanged state. -/
theorem signal_registry_invariant (r : SignalRegistry) (p : String) (v : ℚ)
    (f : Option (String → Option ℚ)) (h : r.Inv) :
    (r.write_signal p v).Inv ∧ (r.mark_physics_driven p).Inv ∧
    r.clear_physics_overrides.Inv ∧ (r.set_device_reader f).Inv ∧ r.Inv := by
  refine ⟨?_, ?_, ?_, ?_, h⟩
  · intro q w hq
    simp only [SignalRegistry.write_signal] at hq ⊢
    by_cases hqp : q = p
    · subst hqp; exact List.mem_insert_self q _
    · have hq' : r.cache.lookup q = some w := by
        simpa [List.lookup_cons, beq_false_of_ne hqp] using hq
      exact List.mem_insert_of_mem (h q w hq')
  · intro q w hq
    simp only [SignalRegistry.mark_physics_driven] at hq ⊢
    exact List.mem_insert_of_mem (h q w hq)
  · intro q w hq
    simp [SignalRegistry.clear_physics_overrides, List.lookup] at hq
  · intro q w hq
    exact h q w hq

/-- Witness for C9: starting from the empty registry (which satisfies the
invariant), a write preserves the invariant. -/
theorem signal_registry_invariant_witness :
    ((SignalRegistry.mk [] [] none).write_signal "a/b" 5).Inv := by
  have h0 : (SignalRegistry.mk [] [] none).Inv := by
    intro p v hv
    simp [List.lookup] at hv
  exact (signal_registry_invariant (SignalRegistry.mk [] [] none) "a/b" 5 none h0).1

/-- Claim C5: `update` performs exactly one explicit-Euler step
T + dt * (heating_power - h * (T - ambient)) / C with the missing-input
defaults 0 W and 25 deg C, the temperature is the sole output, the
constructor defaults are C = 1000, h = 10 and temperature 25, `init` with
no parameters keeps them, and `init` rejects non-positive C or h. -/
theorem thermal_mass_update_spec (m : ThermalMassModel) (dt : ℚ)
    (inputs : List (String × ℚ)) (c hcoef : ℚ) (hc : c ≤ 0) (hh : hcoef ≤ 0) :
    (m.update dt inputs).1.temperature =
      m.temperature + dt * (((inputs.lookup "heating_power").getD 0) -
        m.heat_transfer_coeff *
          (m.temperature - (inputs.lookup "ambient_temp").getD 25)) /
        m.thermal_mass ∧
    (m.update dt inputs).2 =
      [("temperature", (m.update dt inputs).1.temperature)] ∧
    ThermalMassModel.ctor =
      { thermal_mass := 1000, heat_transfer_coeff := 10
        initial_temp := 25, temperature := 25 } ∧
    ThermalMassModel.ctor.init [] = .ok ThermalMassModel.ctor ∧
    exceptIsOk (ThermalMassModel.ctor.init [("thermal_mass", c)]) = false ∧
    exceptIsOk (ThermalMassModel.ctor.init [("heat_transfer_coeff", hcoef)]) = false := by
  refine ⟨?_, rfl, rfl, rfl, ?_, ?_⟩
  · simp only [ThermalMassModel.update]
    ring
  · simp [ThermalMassModel.init, List.lookup_cons, exceptIsOk, hc]
  · simp [ThermalMassModel.init, List.lookup_cons, exceptIsOk, hh]

/-- Witness for C5: one Euler step with no inputs from the default model
stays at 25 deg C, and a zero thermal mass is rejected. -/
theorem thermal_mass_update_spec_witness :
    (ThermalMassModel.ctor.update 1 []).1.temperature = 25 ∧
    exceptIsOk (ThermalMassModel.ctor.init [("thermal_mass", 0)]) = false := by
  have h := thermal_mass_update_spec ThermalMassModel.ctor 1 [] 0 0 le_rfl le_rfl
  refine ⟨?_, h.2.2.2.2.1⟩
  rw [h.1]
  norm_num [List.lookup, ThermalMassModel.ctor]

/-- Claim C6: rule-condition evaluation reads object/signal through the
signal source; a missing value makes the condition false for every
comparator, and a present value is compared to the literal with the usual
order comparators, equality holding exactly when the absolute difference
is below 1e-6 and inequality exactly when it is at least 1e-6. -/
theorem evaluate_condition_spec (read : String → Option ℚ)
    (object_id signal_id : String) (threshold v : ℚ) :
    (read (object_id ++ "/" ++ signal_id) = none →
      ∀ cmp, evaluate_condition read object_id signal_id cmp threshold = false) ∧
    (read (object_id ++ "/" ++ signal_id) = some v →
      (evaluate_condition read object_id signal_id .eq threshold = true ↔
        |v - threshold| < 1 / 1000000) ∧
      (evaluate_condition read object_id signal_id .ne threshold = true ↔
        1 / 1000000 ≤ |v - threshold|) ∧
      (evaluate_condition read object_id signal_id .lt threshold = true ↔
        v < threshold) ∧
      (evaluate_condition read object_id signal_id .le threshold = true ↔
        v ≤ threshold) ∧
      (evaluate_condition read object_id signal_id .gt threshold = true ↔
        threshold < v) ∧
      (evaluate_condition read object_id signal_id .ge threshold = true ↔
        threshold ≤ v)) := by
  constructor
  · intro h cmp
    simp [evaluate_condition, h]
  · intro h
    simp [evaluate_condition, h, ge_iff_le, gt_iff_lt]

/-- Witness for C6: reading the exact threshold makes the tolerant
equality true, and a missing signal makes the condition false. -/
theorem evaluate_condition_spec_witness :
    evaluate_condition (fun _ => some 3) "m" "t" Cmp.eq 3 = true ∧
    evaluate_condition (fun _ => none) "m" "t" Cmp.lt 3 = false := by
  constructor
  · exact ((evaluate_condition_spec (fun _ => some 3) "m" "t" 3 3).2 rfl).1.mpr
      (by norm_num)
  · exact (evaluate_condition_spec (fun _ => none) "m" "t" 3 3).1 rfl Cmp.lt

/-- Claim C2 as stated is false on the code: with period 1 and a first
tick whose work lasts 2 periods, the second tick starts at time 2 (the
loop starts the next tick immediately after a slow tick measured from that
tick's own start), not at thread_start + 1 * period = 1 as the fixed-phase
schedule of the claim demands. -/
theorem ticker_fixed_phase_counterexample :
    tickStart 1 (fun _ => 2) 1 ≠ 0 + 1 * 1 := by
  norm_num [tickStart, nextTickStart]

/-- Claim C2 amended: the ticker keeps no fixed-phase schedule; after each
tick the next tick starts one period after this tick's start when the work
finished within the period, and immediately at the end of a slow tick:
tickStart (k+1) = tickStart k + max period (elapsed k), a schedule rebased
to each tick's own start time. -/
theorem ticker_next_tick_recurrence (period : ℚ) (elapsed : ℕ → ℚ) (k : ℕ) :
    tickStart period elapsed (k + 1) =
      tickStart period elapsed k + max period (elapsed k) := by
  show nextTickStart period (elapsed k) (tickStart period elapsed k) = _
  unfold nextTickStart
  split_ifs with h
  · rw [max_eq_left h.le]
  · rw [max_eq_right (not_lt.mp h)]

/-- Claim C7: the Delay transform's simulated clock is the function-local
`static double sim_time` of `SimPhysics::apply_transform`, shared by every
delay edge rather than kept per (source, target) edge.  With dt = 1 s,
delay 1 s and the input sequence 10, 20 on edge A, A's outputs are
(10, 10) when A is the only delay edge but (10, 20) when a second delay
edge is processed after A each tick, because the other edge's calls also
advance the shared clock. -/
theorem delay_shared_clock_divergence :
    delayAloneOutputs = (10, 10) ∧ delayWithOtherOutputs = (10, 20) ∧
    delayAloneOutputs.2 ≠ delayWithOtherOutputs.2 := by
  have h1 : delayAloneOutputs = (10, 10) := by
    norm_num [delayAloneOutputs, apply_delay, List.dropWhile, List.find?]
  have h2 : delayWithOtherOutputs = (10, 20) := by
    norm_num [delayWithOtherOutputs, apply_delay, List.dropWhile, List.find?]
  refine ⟨h1, h2, ?_⟩
  rw [h1, h2]
  norm_num

/-- Claim C10 as stated is false when `device_id` is empty: with
function_id 0 and a non-empty function_name the empty-device check of
`handle_call` fires first and the response status is INVALID_ARGUMENT,
not UNIMPLEMENTED. -/
theorem handle_call_empty_device_counterexample :
    (handle_call (fun _ _ (s : Nat) => (s + 1, StatusCode.OK))
        { device_id := "", function_id := 0, function_name := "f" } 0).2 =
      StatusCode.INVALID_ARGUMENT ∧
    StatusCode.INVALID_ARGUMENT ≠ StatusCode.UNIMPLEMENTED := by
  constructor
  · rfl
  · decide

/-- Claim C10 amended: for every call request with a non-empty device_id
and function_id 0, `handle_call` responds INVALID_ARGUMENT when
function_name is also empty and UNIMPLEMENTED when it is non-empty; in
both cases the device state is returned unchanged and `call_function` is
never consulted (the result is the same for every `call_function`). -/
theorem handle_call_function_id_zero {σ : Type}
    (call_function : String → Nat → σ → σ × StatusCode)
    (req : CallRequest) (s : σ) (hdev : req.device_id ≠ "")
    (hfid : req.function_id = 0) :
    (req.function_name = "" →
      handle_call call_function req s = (s, StatusCode.INVALID_ARGUMENT)) ∧
    (req.function_name ≠ "" →
      handle_call call_function req s = (s, StatusCode.UNIMPLEMENTED)) := by
  constructor
  · intro hname
    simp [handle_call, hdev, hfid, hname]
  · intro hname
    simp [handle_call, hdev, hfid, hname]

/-- Witness for the amended C10 at a concrete request and a state-mutating
`call_function` that is provably never reached. -/
theorem handle_call_function_id_zero_witness :
    handle_call (fun _ _ (s : Nat) => (s + 1, StatusCode.OK))
        { device_id := "dev", function_id := 0, function_name := "go" } 7 =
      (7, StatusCode.UNIMPLEMENTED) ∧
    handle_call (fun _ _ (s : Nat) => (s + 1, StatusCode.OK))
        { device_id := "dev", function_id := 0, function_name := "" } 7 =
      (7, StatusCode.INVALID_ARGUMENT) := by
  constructor
  · exact (handle_call_function_id_zero (fun _ _ s => (s + 1, StatusCode.OK))
      { device_id := "dev", function_id := 0, function_name := "go" } 7
      (by decide) rfl).2 (by decide)
  · exact (handle_call_function_id_zero (fun _ _ s => (s + 1, StatusCode.OK))
      { device_id := "dev", function_id := 0, function_name := "" } 7
      (by decide) rfl).1 rfl

/-- Claim C4: `read_frame` classifies stream ends: an empty stream is
clean EOF with an empty error; end of input after a partial header or a
partial payload is a failure with a non-empty error; and a decoded length
of zero or above the 1 MiB limit is rejected with a non-empty error. -/
theorem read_frame_eof_classification :
    ((read_frame [] kMaxFrameBytes).ok = false ∧
      (read_frame [] kMaxFrameBytes).err = "") ∧
    (∀ input : List Nat, 0 < input.length → input.length < 4 →
      (read_frame input kMaxFrameBytes).ok = false ∧
      (read_frame input kMaxFrameBytes).err ≠ "") ∧
    (∀ b0 b1 b2 b3 : Nat, ∀ rest : List Nat,
      0 < decode_u32_le b0 b1 b2 b3 →
      decode_u32_le b0 b1 b2 b3 ≤ kMaxFrameBytes →
      rest.length < decode_u32_le b0 b1 b2 b3 →
      (read_frame (b0 :: b1 :: b2 :: b3 :: rest) kMaxFrameBytes).ok = false ∧
      (read_frame (b0 :: b1 :: b2 :: b3 :: rest) kMaxFrameBytes).err ≠ "") ∧
    (∀ b0 b1 b2 b3 : Nat, ∀ rest : List Nat,
      decode_u32_le b0 b1 b2 b3 = 0 →
      (read_frame (b0 :: b1 :: b2 :: b3 :: rest) kMaxFrameBytes).ok = false ∧
      (read_frame (b0 :: b1 :: b2 :: b3 :: rest) kMaxFrameBytes).err ≠ "") ∧
    (∀ b0 b1 b2 b3 : Nat, ∀ rest : List Nat,
      kMaxFrameBytes < decode_u32_le b0 b1 b2 b3 →
      (read_frame (b0 :: b1 :: b2 :: b3 :: rest) kMaxFrameBytes).ok = false ∧
      (read_frame (b0 :: b1 :: b2 :: b3 :: rest) kMaxFrameBytes).err ≠ "") := by
  have hhdr : ("unexpected EOF while reading frame header" : String) ≠ "" := by
    decide
  have hpay : ("unexpected EOF while reading frame payload" : String) ≠ "" := by
    decide
  have hz : ("invalid frame length: 0" : String) ≠ "" := by decide
  have hmx : ("frame length exceeds max" : String) ≠ "" := by decide
  refine ⟨⟨rfl, rfl⟩, ?_, ?_, ?_, ?_⟩
  · intro input h1 h4
    rcases input with _ | ⟨a, _ | ⟨b, _ | ⟨c, _ | ⟨d, t⟩⟩⟩⟩
    · simp at h1
    · exact ⟨rfl, hhdr⟩
    · exact ⟨rfl, hhdr⟩
    · exact ⟨rfl, hhdr⟩
    · simp only [List.length_cons] at h4
      omega
  · intro b0 b1 b2 b3 rest hpos hle hlen
    simp only [read_frame]
    rw [if_neg (by omega), if_neg (by omega), if_pos hlen]
    exact ⟨rfl, hpay⟩
  · intro b0 b1 b2 b3 rest h0
    simp only [read_frame]
    rw [if_pos h0]
    exact ⟨rfl, hz⟩
  · intro b0 b1 b2 b3 rest hgt
    simp only [read_frame]
    rw [if_neg (by omega), if_pos hgt]
    exact ⟨rfl, hmx⟩

/-- Witness for C4 at concrete streams: a one-byte stream is a truncated
header, a header announcing one payload byte with none following is a
truncated payload, and an all-zero header is an invalid length. -/
theorem read_frame_eof_classification_witness :
    (read_frame [5] kMaxFrameBytes).ok = false ∧
    (read_frame [5] kMaxFrameBytes).err ≠ "" ∧
    (read_frame [1, 0, 0, 0] kMaxFrameBytes).err ≠ "" ∧
    (read_frame [0, 0, 0, 0] kMaxFrameBytes).err ≠ "" := by
  obtain ⟨hok, herr⟩ :=
    read_frame_eof_classification.2.1 [5] (by decide) (by decide)
  refine ⟨hok, herr, ?_, ?_⟩
  · exact (read_frame_eof_classification.2.2.1 1 0 0 0 []
      (by decide) (by decide) (by decide)).2
  · exact (read_frame_eof_classification.2.2.2.1 0 0 0 0 [] (by decide)).2

/-- Little-endian decode inverts encode below 2^32. -/
theorem decode_encode_u32 (n : Nat) (h : n < 4294967296) :
    decode_u32_le (n % 256) (n / 256 % 256) (n / 65536 % 256)
      (n / 16777216 % 256) = n := by
  unfold decode_u32_le
  omega

/-- A frame emitted for payload B followed by any tail bytes is parsed
back to exactly B with the tail left unconsumed. -/
theorem read_frame_encode (B tail : List Nat) (hpos : 0 < B.length)
    (hle : B.length ≤ kMaxFrameBytes) :
    read_frame (encode_u32_le B.length ++ (B ++ tail)) kMaxFrameBytes =
      { ok := true, err := "", payload := B, rest := tail } := by
  have hk : kMaxFrameBytes = 1048576 := rfl
  have hdec := decode_encode_u32 B.length (by omega)
  show read_frame (B.length % 256 :: B.length / 256 % 256 ::
    B.length / 65536 % 256 :: B.length / 16777216 % 256 :: (B ++ tail))
    kMaxFrameBytes = _
  simp only [read_frame, hdec]
  rw [if_neg (by omega), if_neg (by omega),
    if_neg (by rw [List.length_append]; omega),
    List.take_left, List.drop_left]

/-- One step of `read_all` on a nonempty stream. -/
theorem read_all_cons (fuel : Nat) (b : Nat) (bs : List Nat) :
    read_all kMaxFrameBytes (fuel + 1) (b :: bs) =
      (if (read_frame (b :: bs) kMaxFrameBytes).ok then
        (read_all kMaxFrameBytes fuel
          (read_frame (b :: bs) kMaxFrameBytes).rest).map
          ((read_frame (b :: bs) kMaxFrameBytes).payload :: ·)
      else none) := rfl

/-- A stream holding only well-formed frames is fully consumed without
error, returning exactly the emitted payloads. -/
theorem read_all_wellformed (frames : List (List Nat))
    (h : ∀ F ∈ frames, 0 < F.length ∧ F.length ≤ kMaxFrameBytes) :
    read_all kMaxFrameBytes frames.length
      (frames.flatMap (fun F => encode_u32_le F.length ++ F)) = some frames := by
  induction frames with
  | nil => rfl
  | cons F fs ih =>
    obtain ⟨hpos, hle⟩ := h F (List.mem_cons_self F fs)
    have hfs : ∀ G ∈ fs, 0 < G.length ∧ G.length ≤ kMaxFrameBytes :=
      fun G hG => h G (List.mem_cons_of_mem F hG)
    have hrf := read_frame_encode F
      (fs.flatMap (fun G => encode_u32_le G.length ++ G)) hpos hle
    have hstream : encode_u32_le F.length ++
        (F ++ fs.flatMap (fun G => encode_u32_le G.length ++ G)) =
        F.length % 256 :: F.length / 256 % 256 :: F.length / 65536 % 256 ::
          F.length / 16777216 % 256 ::
          (F ++ fs.flatMap (fun G => encode_u32_le G.length ++ G)) := rfl
    rw [List.flatMap_cons, List.append_assoc, List.length_cons, hstream,
      read_all_cons, ← hstream, hrf]
    simp [ih hfs]

/-- Claim C3: for every payload B with 0 < length at most 1 MiB,
`write_frame` succeeds and emits the 4-byte little-endian length followed
by B; `read_frame` over exactly those bytes (before any further stream
content) returns B unchanged, consuming nothing else; and a stream that is
a concatenation of such well-formed frames is fully consumed without
error. -/
theorem frame_roundtrip (B rest : List Nat) (frames : List (List Nat))
    (hpos : 0 < B.length) (hle : B.length ≤ kMaxFrameBytes)
    (hframes : ∀ F ∈ frames, 0 < F.length ∧ F.length ≤ kMaxFrameBytes) :
    write_frame B kMaxFrameBytes = .ok (encode_u32_le B.length ++ B) ∧
    read_frame ((encode_u32_le B.length ++ B) ++ rest) kMaxFrameBytes =
      { ok := true, err := "", payload := B, rest := rest } ∧
    read_all kMaxFrameBytes frames.length
      (frames.flatMap (fun F => encode_u32_le F.length ++ F)) = some frames := by
  have hk : kMaxFrameBytes = 1048576 := rfl
  refine ⟨?_, ?_, read_all_wellformed frames hframes⟩
  · unfold write_frame
    rw [if_neg (by omega), if_neg (by omega), if_neg (by omega)]
  · rw [List.append_assoc]
    exact read_frame_encode B rest hpos hle

/-- Witness for C3 at the payload [7]: the emitted frame is
[1, 0, 0, 0, 7], reading it back returns [7] with nothing left, and the
one-frame stream is fully consumed. -/
theorem frame_roundtrip_witness :
    write_frame [7] kMaxFrameBytes = .ok [1, 0, 0, 0, 7] ∧
    read_frame [1, 0, 0, 0, 7] kMaxFrameBytes =
      { ok := true, err := "", payload := [7], rest := [] } ∧
    read_all kMaxFrameBytes 1 [1, 0, 0, 0, 7] = some [[7]] := by
  have h := frame_roundtrip [7] [] [[7]] (by decide) (by decide)
    (by
      intro F hF
      simp at hF
      subst hF
      exact ⟨by decide, by decide⟩)
  refine ⟨?_, ?_, ?_⟩
  · simpa [encode_u32_le] using h.1
  · simpa [encode_u32_le] using h.2.1
  · simpa [encode_u32_le] using h.2.2

/-- Bool bridge between the find? loop of the bindings check and an
all-devices statement. -/
theorem find_none_iff_all_not {α : Type} (p : α → Bool) (l : List α) :
    l.find? p = none ↔ l.all (fun a => !p a) = true := by
  rw [List.find?_eq_none, List.all_eq_true]
  constructor
  · intro h a ha
    simpa using h a ha
  · intro h a ha
    simpa using h a ha

/-- The bindings check succeeds exactly in physics mode or when no device
carries physics_bindings. -/
theorem validate_bindings_ok_iff (c : RawConfig) :
    exceptIsOk (validate_bindings c) = true ↔
      (c.mode = SimulationMode.Physics ∨
        c.devices.all (fun d => !d.has_physics_bindings) = true) := by
  unfold validate_bindings
  split_ifs with h
  · simp [h, exceptIsOk]
  · cases hfind : c.devices.find? (fun d => d.has_physics_bindings) with
    | none =>
      simp only [exceptIsOk, true_iff]
      exact Or.inr ((find_none_iff_all_not _ _).mp hfind)
    | some d =>
      have hd : d.has_physics_bindings = true := List.find?_some hfind
      have hmem : d ∈ c.devices := List.mem_of_find?_eq_some hfind
      simp only [exceptIsOk]
      constructor
      · intro hfalse
        exact absurd hfalse (by decide)
      · rintro (hm | hall)
        · exact absurd hm h
        · rw [List.all_eq_true] at hall
          have h2 := hall d hmem
          rw [hd] at h2
          exact absurd h2 (by decide)

/-- The mode matrix of `validate_mode` characterised. -/
theorem validate_mode_ok_iff (c : RawConfig) :
    exceptIsOk (validate_mode c) = true ↔
      (match c.mode with
       | .NonInteracting =>
           c.tick_rate_hz.isSome = true ∧ c.physics_config = none ∧
           c.devices.all (fun d => !d.has_physics_bindings) = true
       | .Inert =>
           c.tick_rate_hz = none ∧ c.physics_config = none ∧
           c.devices.all (fun d => !d.has_physics_bindings) = true
       | .Physics =>
           c.tick_rate_hz.isSome = true ∧ c.physics_config.isSome = true) := by
  obtain ⟨mode, tick, pc, devs⟩ := c
  cases mode with
  | NonInteracting =>
    cases tick with
    | none => simp [validate_mode, exceptIsOk]
    | some r =>
      cases pc with
      | some s => simp [validate_mode, exceptIsOk]
      | none =>
        show exceptIsOk (validate_bindings
          ⟨SimulationMode.NonInteracting, some r, none, devs⟩) = true ↔ _
        rw [validate_bindings_ok_iff]
        simp
  | Inert =>
    cases tick with
    | some r => simp [validate_mode, exceptIsOk]
    | none =>
      cases pc with
      | some s => simp [validate_mode, exceptIsOk]
      | none =>
        show exceptIsOk (validate_bindings
          ⟨SimulationMode.Inert, none, none, devs⟩) = true ↔ _
        rw [validate_bindings_ok_iff]
        simp
  | Physics =>
    cases tick with
    | none => simp [validate_mode, exceptIsOk]
    | some r =>
      cases pc with
      | none => simp [validate_mode, exceptIsOk]
      | some s => simp [validate_mode, validate_bindings, exceptIsOk]

/-- Claim C8: the validation stage of `load_config` succeeds exactly when
the mode-by-field matrix holds: non_interacting requires tick_rate_hz and
forbids physics_config and device physics_bindings; inert forbids all
three; physics requires tick_rate_hz and physics_config (bindings
allowed); and any provided tick_rate_hz lies in [0.1, 1000.0].  On any
violation an error is thrown and no configuration value is produced. -/
theorem load_config_matrix (c : RawConfig) :
    exceptIsOk (load_config_validate c) = true ↔
      ((match c.tick_rate_hz with
        | some r => 1 / 10 ≤ r ∧ r ≤ 1000
        | none => True) ∧
       (match c.mode with
        | .NonInteracting =>
            c.tick_rate_hz.isSome = true ∧ c.physics_config = none ∧
            c.devices.all (fun d => !d.has_physics_bindings) = true
        | .Inert =>
            c.tick_rate_hz = none ∧ c.physics_config = none ∧
            c.devices.all (fun d => !d.has_physics_bindings) = true
        | .Physics =>
            c.tick_rate_hz.isSome = true ∧ c.physics_config.isSome = true)) := by
  cases htick : c.tick_rate_hz with
  | none =>
    have hlc : load_config_validate c = validate_mode c := by
      unfold load_config_validate
      rw [htick]
    rw [hlc, validate_mode_ok_iff, htick]
    simp
  | some r =>
    have hlc : load_config_validate c =
        (if r < 1 / 10 ∨ 1000 < r then
          .error "[CONFIG] simulation.tick_rate_hz must be in range [0.1, 1000.0]"
        else validate_mode c) := by
      unfold load_config_validate
      rw [htick]
    rw [hlc]
    split_ifs with hr
    · constructor
      · intro hfalse
        exact absurd hfalse (by decide)
      · rintro ⟨⟨h1, h2⟩, -⟩
        rcases hr with hr | hr
        · exact absurd h1 (not_le.mpr hr)
        · exact absurd h2 (not_le.mpr hr)
    · push_neg at hr
      rw [validate_mode_ok_iff, htick]
      have hr1 : (10 : ℚ)⁻¹ ≤ r := by simpa using hr.1
      cases hmode : c.mode <;> simp [hr.1, hr.2, hr1]

/-- Witness for C8: a physics-mode configuration with tick rate 10 Hz, a
physics config and a device with bindings loads successfully. -/
theorem load_config_matrix_witness :
    exceptIsOk (load_config_validate
      { mode := SimulationMode.Physics, tick_rate_hz := some 10,
        physics_config := some "physics.yaml",
        devices := [{ id := "tc1", has_physics_bindings := true }] }) = true := by
  exact (load_config_matrix _).mpr ⟨by norm_num, by simp⟩

end Anolis
